import Mathlib

/-!
# usbd480fb — a shallow embedding of `src/usbd480fb.c` with proofs

The USBD480 framebuffer driver keeps one host-side frame buffer (`vmem`,
`vmemsize = width*height*2` bytes) and a periodic work item
(`usbd480fb_work`) that uploads the buffer to the device and alternates
between the two device-side pages (`disp_page`).  This file embeds the
driver's control logic: machine integers become `Nat` with an explicit
`% 2^w` truncation wherever the C narrows a value, the USB transport
becomes explicit result/buffer parameters, and each C function that makes
external calls also returns the trace of those calls, in order.
-/

namespace Usbd480fb

/-- The four sysfs attribute files the driver registers
(`dev_attr_brightness`, `dev_attr_width`, `dev_attr_height`,
`dev_attr_name`). -/
inductive Attr where
  | brightness
  | width
  | height
  | name
  deriving DecidableEq

/-- `struct usbd480`, the fields the driver's logic reads or writes
(`udev`, `fbinfo`, `work`, `wq` are kernel handles modelled elsewhere).
`brightness` is an `unsigned char` field, so every store into it truncates
`% 256`; `device_name` is `char[20]`, held as a list of byte values;
`vmem` and `vmem_phys` stand for the pointer values. -/
structure Usbd480 where
  vmem : Nat
  vmemsize : Nat
  vmem_phys : Nat
  disp_page : Nat
  brightness : Nat
  width : Nat
  height : Nat
  device_name : List Nat
  deriving DecidableEq

/-- Page size of the modelled platform (4 KiB). -/
def PAGE_SIZE : Nat := 4096

/-- `PAGE_ALIGN(n)`: `n` rounded up to a multiple of `PAGE_SIZE`. -/
def PAGE_ALIGN (n : Nat) : Nat := (n + PAGE_SIZE - 1) / PAGE_SIZE * PAGE_SIZE

/-- `get_order(n)`: the smallest order `k` such that `2^k` pages hold `n`
bytes — the granularity at which `__get_free_pages` allocates. -/
def get_order (n : Nat) : Nat :=
  (((List.range 64).findIdx? fun k => n ≤ PAGE_SIZE * 2 ^ k)).getD 64

/-- Bytes actually allocated for the frame buffer:
`USBD480_VIDEOMEMORDER = get_order(PAGE_ALIGN(dev->vmemsize))` pages. -/
def vmemAllocBytes (vmemsize : Nat) : Nat :=
  PAGE_SIZE * 2 ^ get_order (PAGE_ALIGN vmemsize)

/-- The kernel's `ENOMEM` errno; failing calls return `-ENOMEM`. -/
def ENOMEM : Int := 12

/-- Byte `i` of an `unsigned char` buffer; a value is truncated to a byte
and a read past the modelled contents yields 0. -/
def byteAt (buffer : List Nat) (i : Nat) : Nat := buffer.getD i 0 % 256

/-- C `strncpy(dst, src, n)` into a fresh `n`-byte array: bytes are copied
up to the first NUL, the remainder is zero-filled. -/
def strncpy : List Nat → Nat → List Nat
  | _, 0 => []
  | [], n + 1 => List.replicate (n + 1) 0
  | b :: src, n + 1 =>
    if b % 256 = 0 then List.replicate (n + 1) 0
    else b % 256 :: strncpy src n

/-- `usbd480_get_device_details`: `kmallocOk` says whether the 64-byte
`kmalloc` succeeds, `result` is what `usb_control_msg` returns, and
`buffer` is the buffer's contents after the transfer attempt (after a
failed transfer the contents are indeterminate, hence a free parameter).
As in the source, the transfer result is only logged; `width`, `height`
and `device_name` are assigned from the buffer unconditionally, and the
function always returns 0. -/
def usbd480_get_device_details (kmallocOk : Bool) (result : Int)
    (buffer : List Nat) (dev : Usbd480) : Usbd480 × Int :=
  if kmallocOk then
    ({ dev with
        width := byteAt buffer 20 ||| byteAt buffer 21 <<< 8,
        height := byteAt buffer 22 ||| byteAt buffer 23 <<< 8,
        device_name := strncpy buffer 20 }, 0)
  else
    (dev, 0)

/-- The external calls one refresh cycle makes, in their order:
`usbd480_set_address` (write address, request 0xC0), the `usb_bulk_msg`
upload of the frame, `usbd480_set_frame_start_address` (show address,
request 0xC4), and `queue_delayed_work` for the next cycle. -/
inductive FbEvent where
  | setAddress (addr : Nat)
  | bulkMsg (len : Nat) (result : Int)
  | setFrameStartAddress (addr : Nat)
  | queueDelayedWork
  deriving DecidableEq

/-- `usbd480fb_work`: one refresh cycle.  `bulkResult` is what
`usb_bulk_msg` returns; the cycle ignores it.  Returns the updated device
state and the trace of external calls the cycle made. -/
def usbd480fb_work (bulkResult : Int) (d : Usbd480) : Usbd480 × List FbEvent :=
  if d.disp_page = 0 then
    let writeaddr := 0
    let showaddr := 0
    let d' := { d with disp_page := 1 }
    (d', [FbEvent.setAddress writeaddr,
          FbEvent.bulkMsg d'.vmemsize bulkResult,
          FbEvent.setFrameStartAddress showaddr,
          FbEvent.queueDelayedWork])
  else
    let writeaddr := d.vmemsize
    let showaddr := d.vmemsize
    let d' := { d with disp_page := 0 }
    (d', [FbEvent.setAddress writeaddr,
          FbEvent.bulkMsg d'.vmemsize bulkResult,
          FbEvent.setFrameStartAddress showaddr,
          FbEvent.queueDelayedWork])

/-- The addresses a cycle trace passes to `usbd480_set_address`. -/
def sentWriteAddrs (t : List FbEvent) : List Nat :=
  t.filterMap fun e =>
    match e with
    | FbEvent.setAddress a => some a
    | _ => none

/-- The addresses a cycle trace passes to `usbd480_set_frame_start_address`. -/
def sentShowAddrs (t : List FbEvent) : List Nat :=
  t.filterMap fun e =>
    match e with
    | FbEvent.setFrameStartAddress a => some a
    | _ => none

/-- The device-side offset a cycle starting in state `d` targets: offset 0
while page 0 is active, offset `vmemsize` while page 1 is. -/
def cycleOffset (d : Usbd480) : Nat := if d.disp_page = 0 then 0 else d.vmemsize

/-- `n` consecutive scheduler cycles from state `d`; `bres k` is the bulk
transfer result seen during cycle `k`. -/
def runCycles (bres : Nat → Int) (d : Usbd480) : Nat → Usbd480
  | 0 => d
  | n + 1 => (usbd480fb_work (bres n) (runCycles bres d n)).1

/-- Accumulator loop of `simple_strtoul` in base 10. -/
def simple_strtoul_go : List Char → Nat → Nat
  | [], acc => acc
  | c :: cs, acc =>
    if c.isDigit then simple_strtoul_go cs (acc * 10 + (c.toNat - 48)) else acc

/-- Kernel `simple_strtoul(buf, NULL, 10)`: the value of the longest run
of decimal digits at the start of `buf`; no range check of any kind. -/
def simple_strtoul (buf : List Char) : Nat := simple_strtoul_go buf 0

/-- `usbd480_set_brightness`: sends control request 0x81 whose `wValue`
carries `brightness % 2^16` (`usb_control_msg` takes a 16-bit value); the
transfer result is only logged and the function always returns 0.  The
result is the pair (wire value, return code). -/
def usbd480_set_brightness (dev : Usbd480) (brightness : Nat)
    (transferResult : Int) : Nat × Int :=
  (brightness % 2 ^ 16, 0)

/-- The sysfs `brightness` store callback `set_brightness`: parses the
text with `simple_strtoul` base 10, truncates the value through `int`
(`% 2^32`) and, on the store into the `unsigned char` field, `% 256`;
forwards the parsed value to `usbd480_set_brightness` whatever the
transport later reports; returns `count`.  The result is (updated state,
value forwarded to `usbd480_set_brightness`, returned count). -/
def set_brightness (buf : List Char) (transferResult : Int) (d : Usbd480) :
    Usbd480 × Nat × Nat :=
  let brightness := simple_strtoul buf % 2 ^ 32
  let d' := { d with brightness := brightness % 256 }
  let _ := usbd480_set_brightness d' brightness transferResult
  (d', brightness, buf.length)

/-- The externally visible effects of `usbd480_probe`, in order; an event
is recorded when the corresponding call completes successfully. -/
inductive ProbeEvent where
  | createFile (a : Attr)
  | removeFile (a : Attr)
  | getDetails
  | computeVmemsize (width height : Nat)
  | getFreePages (order : Nat)
  | freePages
  | framebufferAlloc
  | framebufferRelease
  | allocPalette
  | kfreePalette
  | allocCmap
  | deallocCmap
  | registerFramebuffer
  | unregisterFramebuffer
  | createWorkqueue
  | queueDelayedWork
  | kfreeDev
  deriving DecidableEq

/-- What the environment decides during `usbd480_probe`: whether each
allocation succeeds and what each external call returns. -/
structure ProbeEnv where
  kzallocOk : Bool
  attrBrightnessRet : Int
  attrWidthRet : Int
  attrHeightRet : Int
  attrNameRet : Int
  detailsKmallocOk : Bool
  detailsResult : Int
  detailsBuffer : List Nat
  vmemOk : Bool
  fbAllocOk : Bool
  palOk : Bool
  cmapOk : Bool
  fbRegRet : Int
  wqOk : Bool

/-- Which acquired resources are currently held: the four sysfs files, the
framebuffer registration, the allocations, the workqueue and the `usbd480`
struct itself. -/
structure Resources where
  attrBrightness : Bool := false
  attrWidth : Bool := false
  attrHeight : Bool := false
  attrName : Bool := false
  fbRegistered : Bool := false
  vmemPages : Bool := false
  fbInfo : Bool := false
  palette : Bool := false
  cmap : Bool := false
  wq : Bool := false
  workQueued : Bool := false
  devStruct : Bool := false
  deriving DecidableEq

/-- Number of sysfs attribute files currently registered. -/
def Resources.attrCount (r : Resources) : Nat :=
  (if r.attrBrightness then 1 else 0) + (if r.attrWidth then 1 else 0)
    + (if r.attrHeight then 1 else 0) + (if r.attrName then 1 else 0)

/-- Outcome of `usbd480_probe`: its return value, the resources still
held, the trace of external effects, and the `usbd480` struct when it
survived. -/
structure ProbeOutcome where
  retval : Int
  res : Resources
  trace : List ProbeEvent
  dev : Option Usbd480
  deriving DecidableEq

/-- Label `error_dev`: `usb_set_intfdata(interface, NULL)`, then
`kfree(dev)` when the struct was allocated. -/
def error_dev (r : Resources) (t : List ProbeEvent) (retval : Int) :
    ProbeOutcome :=
  if r.devStruct then
    { retval := retval, res := { r with devStruct := false },
      trace := t ++ [ProbeEvent.kfreeDev], dev := none }
  else
    { retval := retval, res := r, trace := t, dev := none }

/-- Label `error_dev_attr`: `device_remove_file` on all four attributes,
then fall through to `error_dev`. -/
def error_dev_attr (r : Resources) (t : List ProbeEvent) (retval : Int) :
    ProbeOutcome :=
  error_dev
    { r with attrBrightness := false, attrWidth := false,
             attrHeight := false, attrName := false }
    (t ++ [ProbeEvent.removeFile Attr.brightness,
           ProbeEvent.removeFile Attr.width,
           ProbeEvent.removeFile Attr.height,
           ProbeEvent.removeFile Attr.name])
    retval

/-- Label `error_vmem`: empty, falls through to `error_dev_attr`. -/
def error_vmem (r : Resources) (t : List ProbeEvent) (retval : Int) :
    ProbeOutcome :=
  error_dev_attr r t retval

/-- Label `error_fballoc`: the `ClearPageReserved` loop and `free_pages`,
then fall through. -/
def error_fballoc (r : Resources) (t : List ProbeEvent) (retval : Int) :
    ProbeOutcome :=
  error_dev_attr { r with vmemPages := false } (t ++ [ProbeEvent.freePages])
    retval

/-- Label `error_fbpseudopal`: `framebuffer_release(info)`, then fall
through. -/
def error_fbpseudopal (r : Resources) (t : List ProbeEvent) (retval : Int) :
    ProbeOutcome :=
  error_fballoc { r with fbInfo := false }
    (t ++ [ProbeEvent.framebufferRelease]) retval

/-- Label `error_fballoccmap`: `kfree(info->pseudo_palette)`, then fall
through. -/
def error_fballoccmap (r : Resources) (t : List ProbeEvent) (retval : Int) :
    ProbeOutcome :=
  error_fbpseudopal { r with palette := false }
    (t ++ [ProbeEvent.kfreePalette]) retval

/-- Label `error_fbreg`: `fb_dealloc_cmap`, then fall through. -/
def error_fbreg (r : Resources) (t : List ProbeEvent) (retval : Int) :
    ProbeOutcome :=
  error_fballoccmap { r with cmap := false } (t ++ [ProbeEvent.deallocCmap])
    retval

/-- Label `error_wq`: `unregister_framebuffer(info)`, then fall through. -/
def error_wq (r : Resources) (t : List ProbeEvent) (retval : Int) :
    ProbeOutcome :=
  error_fbreg { r with fbRegistered := false }
    (t ++ [ProbeEvent.unregisterFramebuffer]) retval

/-- `kzalloc(sizeof(struct usbd480), GFP_KERNEL)`: a zero-filled struct. -/
def kzallocDev : Usbd480 :=
  { vmem := 0, vmemsize := 0, vmem_phys := 0, disp_page := 0,
    brightness := 0, width := 0, height := 0,
    device_name := List.replicate 20 0 }

/-- `usbd480_probe`, each external call's outcome supplied by `env`.
Mirrors the source's order of calls, the `retval` variable, and the `goto`
unwind chain; on success `disp_page` is set to 0 and the first work item
is queued. -/
def usbd480_probe (env : ProbeEnv) : ProbeOutcome :=
  if env.kzallocOk then
    let dev0 := kzallocDev
    let r0 : Resources := { devStruct := true }
    if env.attrBrightnessRet ≠ 0 then
      error_dev_attr r0 [] env.attrBrightnessRet
    else
      let r1 := { r0 with attrBrightness := true }
      let t1 := [ProbeEvent.createFile Attr.brightness]
      if env.attrWidthRet ≠ 0 then
        error_dev_attr r1 t1 env.attrWidthRet
      else
        let r2 := { r1 with attrWidth := true }
        let t2 := t1 ++ [ProbeEvent.createFile Attr.width]
        if env.attrHeightRet ≠ 0 then
          error_dev_attr r2 t2 env.attrHeightRet
        else
          let r3 := { r2 with attrHeight := true }
          let t3 := t2 ++ [ProbeEvent.createFile Attr.height]
          if env.attrNameRet ≠ 0 then
            error_dev_attr r3 t3 env.attrNameRet
          else
            let r4 := { r3 with attrName := true }
            let t4 := t3 ++ [ProbeEvent.createFile Attr.name]
            let dev1 := (usbd480_get_device_details env.detailsKmallocOk
              env.detailsResult env.detailsBuffer dev0).1
            let t5 := t4 ++ [ProbeEvent.getDetails]
            let dev2 := { dev1 with vmemsize := dev1.width * dev1.height * 2 }
            let t6 := t5 ++ [ProbeEvent.computeVmemsize dev1.width dev1.height]
            if ¬ env.vmemOk then
              error_vmem r4 t6 (-ENOMEM)
            else
              let r5 := { r4 with vmemPages := true }
              let t7 := t6 ++
                [ProbeEvent.getFreePages (get_order (PAGE_ALIGN dev2.vmemsize))]
              if ¬ env.fbAllocOk then
                error_fballoc r5 t7 env.attrNameRet
              else
                let r6 := { r5 with fbInfo := true }
                let t8 := t7 ++ [ProbeEvent.framebufferAlloc]
                if ¬ env.palOk then
                  error_fbpseudopal r6 t8 (-ENOMEM)
                else
                  let r7 := { r6 with palette := true }
                  let t9 := t8 ++ [ProbeEvent.allocPalette]
                  if ¬ env.cmapOk then
                    error_fballoccmap r7 t9 (-ENOMEM)
                  else
                    let r8 := { r7 with cmap := true }
                    let t10 := t9 ++ [ProbeEvent.allocCmap]
                    if env.fbRegRet < 0 then
                      error_fbreg r8 t10 env.fbRegRet
                    else
                      let r9 := { r8 with fbRegistered := true }
                      let t11 := t10 ++ [ProbeEvent.registerFramebuffer]
                      let dev3 := { dev2 with disp_page := 0 }
                      if ¬ env.wqOk then
                        error_wq r9 t11 (-ENOMEM)
                      else
                        let r10 := { r9 with wq := true, workQueued := true }
                        let t12 := t11 ++ [ProbeEvent.createWorkqueue,
                          ProbeEvent.queueDelayedWork]
                        { retval := 0, res := r10, trace := t12,
                          dev := some dev3 }
  else
    error_dev {} [] (-ENOMEM)

/-- The external calls `usbd480_disconnect` makes, in their order.
`cancelDelayedWorkSync` stands for `cancel_delayed_work_sync`, which by
its kernel contract returns only once any in-flight work item has fully
finished; its position in the trace is therefore the point at which the
scheduler task is confirmed stopped. -/
inductive DiscEvent where
  | cancelDelayedWorkSync
  | flushWorkqueue
  | destroyWorkqueue
  | removeFile (a : Attr)
  | unregisterFramebuffer
  | framebufferRelease
  | freePages
  | putDev
  | kfreeDev
  deriving DecidableEq

/-- `usbd480_disconnect`: cancel and tear down the work queue, remove the
four sysfs files, then — when `dev->fbinfo` is set — unregister and
release the framebuffer and free the frame memory pages, and finally
release the device reference and free the struct. -/
def usbd480_disconnect (hasFbinfo : Bool) : List DiscEvent :=
  [DiscEvent.cancelDelayedWorkSync, DiscEvent.flushWorkqueue,
   DiscEvent.destroyWorkqueue,
   DiscEvent.removeFile Attr.brightness, DiscEvent.removeFile Attr.width,
   DiscEvent.removeFile Attr.height, DiscEvent.removeFile Attr.name]
  ++ (if hasFbinfo then
        [DiscEvent.unregisterFramebuffer, DiscEvent.framebufferRelease,
         DiscEvent.freePages]
      else [])
  ++ [DiscEvent.putDev, DiscEvent.kfreeDev]

/-- A session state as probed from a 480x272 panel:
`vmemsize = 480*272*2 = 261120`, page 0 active. -/
def dev480 : Usbd480 :=
  { vmem := 0, vmemsize := 261120, vmem_phys := 0, disp_page := 0,
    brightness := 0, width := 480, height := 272,
    device_name := List.replicate 20 0 }

/-- A 64-byte response buffer whose byte `i` is `i`. -/
def buffer64 : List Nat := List.range 64

/-- The text `300` as input to the brightness store callback. -/
def input300 : List Char := ['3', '0', '0']

/-- A probe run in which every host-side step succeeds but the
device-details control transfer fails with `-EPROTO` (-71), leaving the
response buffer zero-filled: discovery reports nothing. -/
def failedDiscoveryEnv : ProbeEnv :=
  { kzallocOk := true, attrBrightnessRet := 0, attrWidthRet := 0,
    attrHeightRet := 0, attrNameRet := 0, detailsKmallocOk := true,
    detailsResult := -71, detailsBuffer := List.replicate 64 0,
    vmemOk := true, fbAllocOk := true, palOk := true, cmapOk := true,
    fbRegRet := 0, wqOk := true }

/-- A probe run in which the frame-memory allocation fails. -/
def vmemFailEnv : ProbeEnv :=
  { failedDiscoveryEnv with vmemOk := false }

/-! ## Helper lemmas -/

/-- A byte of a buffer is below 256. -/
theorem byteAt_lt (buffer : List Nat) (i : Nat) : byteAt buffer i < 256 :=
  Nat.mod_lt _ (by decide)

/-- Little-endian pairing: or-ing a byte with a value shifted by 8 is
addition. -/
theorem lor_shl8 (x y : Nat) (hx : x < 256) : x ||| y <<< 8 = x + 256 * y := by
  have h := Nat.mul_add_lt_is_or (b := x) (i := 8) (by simpa using hx) y
  rw [Nat.shiftLeft_eq, Nat.lor_comm, Nat.mul_comm y (2 ^ 8), ← h]
  have e : (2 : Nat) ^ 8 = 256 := by norm_num
  rw [e]
  omega

/-- One cycle only rewrites `disp_page`, toggling it. -/
theorem work_disp_page_toggle (r : Int) (d : Usbd480) :
    (usbd480fb_work r d).1
      = { d with disp_page := if d.disp_page = 0 then 1 else 0 } := by
  unfold usbd480fb_work
  split <;> simp_all

/-- After `n` cycles from a page-0 state, the active page is `n % 2`. -/
theorem runCycles_mod_two (bres : Nat → Int) (d : Usbd480)
    (h : d.disp_page = 0) : ∀ n, (runCycles bres d n).disp_page = n % 2 := by
  intro n
  induction n with
  | zero => simpa [runCycles] using h
  | succ k ih =>
      show (usbd480fb_work (bres k) (runCycles bres d k)).1.disp_page
        = (k + 1) % 2
      rw [work_disp_page_toggle]
      rw [show ({ runCycles bres d k with
          disp_page := if (runCycles bres d k).disp_page = 0 then 1
            else 0 } : Usbd480).disp_page
        = (if (runCycles bres d k).disp_page = 0 then 1 else 0) from rfl]
      rw [ih]
      rcases Nat.mod_two_eq_zero_or_one k with hk | hk <;> simp [hk] <;> omega

/-- `strncpy` looks only at the first `n` source bytes. -/
theorem strncpy_take (src : List Nat) (n : Nat) :
    strncpy (src.take n) n = strncpy src n := by
  induction src generalizing n with
  | nil => cases n <;> simp [strncpy]
  | cons b src ih =>
      cases n with
      | zero => simp [strncpy]
      | succ m =>
          simp only [List.take_succ_cons, strncpy]
          rw [ih]

/-- `strncpy` always yields exactly `n` bytes. -/
theorem strncpy_length (src : List Nat) (n : Nat) :
    (strncpy src n).length = n := by
  induction src generalizing n with
  | nil => cases n <;> simp [strncpy]
  | cons b src ih =>
      cases n with
      | zero => simp [strncpy]
      | succ m =>
          simp only [strncpy]
          split <;> simp [ih]

/-! ## Claim theorems -/

/-- Claim C1, as stated, is false: the claim derives the cycle's offset
from the toggled value of `activePage` (`disp_page`), predicting that a
cycle beginning on page 0 passes `bufferSize` to the write-address call.
The code computes the offset from the pre-toggle value: on the concrete
480x272 state `dev480` (page 0, `vmemsize = 261120`) the cycle passes
offset 0, not 261120. -/
theorem toggle_then_offset_claim_false :
    ¬ (∀ (r : Int) (d : Usbd480),
        (usbd480fb_work r d).1.disp_page = (if d.disp_page = 0 then 1 else 0)
        ∧ (d.disp_page = 0 →
            sentWriteAddrs (usbd480fb_work r d).2 = [d.vmemsize])
        ∧ (d.disp_page = 1 →
            sentWriteAddrs (usbd480fb_work r d).2 = [0])) := by
  intro h
  exact absurd ((h 0 dev480).2.1 rfl) (by decide)

/-- Claim C1 (corrected): every cycle toggles `disp_page`, and the offset
passed to the write-address call is computed from the pre-toggle value —
a cycle that begins on page 0 targets offset 0, a cycle that begins on any
other page value targets offset `vmemsize`; the show-address gets the same
offset. -/
theorem work_offset_from_pretoggle (r : Int) (d : Usbd480) :
    (usbd480fb_work r d).1.disp_page = (if d.disp_page = 0 then 1 else 0)
    ∧ sentWriteAddrs (usbd480fb_work r d).2
        = [if d.disp_page = 0 then 0 else d.vmemsize]
    ∧ sentShowAddrs (usbd480fb_work r d).2
        = [if d.disp_page = 0 then 0 else d.vmemsize] := by
  unfold usbd480fb_work
  split <;> simp_all [sentWriteAddrs, sentShowAddrs]

/-- Claim C2 (code bug): when the device-details control transfer fails
(here with `-EPROTO` and a zero-filled response buffer) the probe still
proceeds: the `width*height*2` size computation is reached with
`width = height = 0`, the page allocator is called, and the probe returns
success with a zero-sized frame buffer — no `width>0 ∧ height>0` guard
exists before the allocation. -/
theorem zero_dims_reach_allocation :
    (usbd480_probe failedDiscoveryEnv).retval = 0
    ∧ ProbeEvent.computeVmemsize 0 0 ∈ (usbd480_probe failedDiscoveryEnv).trace
    ∧ ProbeEvent.getFreePages 0 ∈ (usbd480_probe failedDiscoveryEnv).trace
    ∧ ((usbd480_probe failedDiscoveryEnv).dev.map Usbd480.vmemsize) = some 0
    ∧ ((usbd480_probe failedDiscoveryEnv).dev.map Usbd480.width) = some 0 := by
  decide

/-- Claim C3, as stated, is false: on a failed control transfer the
session's `width`/`height` do not keep their previous values — they are
unconditionally overwritten from the response buffer.  Concretely, from a
state holding `width = 480`, a failed transfer (-71) that leaves the
buffer zero-filled ends with `width = 0`. -/
theorem details_preserves_dims_claim_false :
    ¬ (∀ (r : Int) (buffer : List Nat) (dev : Usbd480), r ≠ 0 →
        ((usbd480_get_device_details true r buffer dev).2 = 0
         ∧ (usbd480_get_device_details true r buffer dev).1.width = dev.width
         ∧ (usbd480_get_device_details true r buffer dev).1.height
             = dev.height)) := by
  intro h
  exact absurd ((h (-71) (List.replicate 64 0) dev480 (by decide)).2.1)
    (by decide)

/-- Claim C3 (corrected): a failed control transfer in
`usbd480_get_device_details` is indeed non-fatal — the function still
returns 0 — but `width` and `height` do not keep their prior values: they
are assigned from response-buffer bytes 20..23 regardless of the transfer
result. -/
theorem details_failure_overwrites (r : Int) (buffer : List Nat)
    (dev : Usbd480) (hr : r ≠ 0) :
    (usbd480_get_device_details true r buffer dev).2 = 0
    ∧ (usbd480_get_device_details true r buffer dev).1.width
        = byteAt buffer 20 ||| byteAt buffer 21 <<< 8
    ∧ (usbd480_get_device_details true r buffer dev).1.height
        = byteAt buffer 22 ||| byteAt buffer 23 <<< 8 :=
  ⟨rfl, rfl, rfl⟩

/-- Witness for C3's corrected theorem at the concrete failing transfer:
the call reports success, assigns from the zero buffer, and in particular
changes `width` away from its prior 480. -/
theorem details_failure_overwrites_witness :
    ((usbd480_get_device_details true (-71) (List.replicate 64 0) dev480).2 = 0
     ∧ (usbd480_get_device_details true (-71) (List.replicate 64 0)
           dev480).1.width
         = byteAt (List.replicate 64 0) 20
             ||| byteAt (List.replicate 64 0) 21 <<< 8
     ∧ (usbd480_get_device_details true (-71) (List.replicate 64 0)
           dev480).1.height
         = byteAt (List.replicate 64 0) 22
             ||| byteAt (List.replicate 64 0) 23 <<< 8)
    ∧ (usbd480_get_device_details true (-71) (List.replicate 64 0)
         dev480).1.width ≠ dev480.width :=
  ⟨details_failure_overwrites (-71) (List.replicate 64 0) dev480 (by decide),
   by decide⟩

/-- Claim C4 (confirmed): starting from the page-0 state the probe
establishes, the active page after `n` cycles is `n % 2` — the sequence
at cycle starts is 0,1,0,1,... — and consecutive cycles always differ. -/
theorem disp_page_alternates (bres : Nat → Int) (d : Usbd480)
    (h : d.disp_page = 0) (n : Nat) :
    (runCycles bres d n).disp_page = n % 2
    ∧ (runCycles bres d (n + 1)).disp_page
        ≠ (runCycles bres d n).disp_page := by
  refine ⟨runCycles_mod_two bres d h n, ?_⟩
  rw [runCycles_mod_two bres d h (n + 1), runCycles_mod_two bres d h n]
  omega

/-- Witness for C4 at the concrete 480x272 state and five cycles. -/
theorem disp_page_alternates_witness :
    dev480.disp_page = 0
    ∧ ((runCycles (fun _ => 0) dev480 5).disp_page = 5 % 2
       ∧ (runCycles (fun _ => 0) dev480 6).disp_page
           ≠ (runCycles (fun _ => 0) dev480 5).disp_page) :=
  ⟨rfl, disp_page_alternates (fun _ => 0) dev480 rfl 5⟩

/-- Claim C5 (confirmed): for a session state whose `vmemsize` is the
logical frame size `width*height*2` (as the probe sets it), a cycle's
trace is exactly: set write address to the cycle offset, bulk-transfer
exactly `width*height*2` bytes, set show address to the same offset, and
re-queue the work item — for every bulk result, so a failed transfer does
not abort the cycle. -/
theorem work_cycle_sequence (r : Int) (d : Usbd480)
    (h : d.vmemsize = d.width * d.height * 2) :
    (usbd480fb_work r d).2 =
      [FbEvent.setAddress (cycleOffset d),
       FbEvent.bulkMsg (d.width * d.height * 2) r,
       FbEvent.setFrameStartAddress (cycleOffset d),
       FbEvent.queueDelayedWork] := by
  unfold usbd480fb_work cycleOffset
  split <;> simp [← h]

/-- Witness for C5 on the 480x272 state with a failed bulk transfer; the
transferred length 261120 differs from the rounded page allocation
(262144 bytes). -/
theorem work_cycle_sequence_witness :
    dev480.vmemsize = dev480.width * dev480.height * 2
    ∧ (usbd480fb_work (-1) dev480).2 =
        [FbEvent.setAddress (cycleOffset dev480),
         FbEvent.bulkMsg (dev480.width * dev480.height * 2) (-1),
         FbEvent.setFrameStartAddress (cycleOffset dev480),
         FbEvent.queueDelayedWork]
    ∧ dev480.width * dev480.height * 2 ≠ vmemAllocBytes dev480.vmemsize :=
  ⟨rfl, work_cycle_sequence (-1) dev480 rfl, by decide⟩

/-- Claim C6 (confirmed): from a 64-byte response buffer,
`usbd480_get_device_details` extracts `width` as the little-endian 16-bit
value at bytes 20..21, `height` at bytes 22..23, and the device name as a
bounded (NUL-truncating, zero-padding) copy of the first 20 bytes,
always 20 bytes long. -/
theorem details_extracts_fields (r : Int) (buffer : List Nat)
    (dev : Usbd480) (hlen : buffer.length = 64) :
    (usbd480_get_device_details true r buffer dev).1.width
        = byteAt buffer 20 + 256 * byteAt buffer 21
    ∧ (usbd480_get_device_details true r buffer dev).1.height
        = byteAt buffer 22 + 256 * byteAt buffer 23
    ∧ (usbd480_get_device_details true r buffer dev).1.device_name
        = strncpy (buffer.take 20) 20
    ∧ ((usbd480_get_device_details true r buffer dev).1.device_name).length
        = 20 := by
  refine ⟨?_, ?_, ?_, ?_⟩
  · exact lor_shl8 _ _ (byteAt_lt buffer 20)
  · exact lor_shl8 _ _ (byteAt_lt buffer 22)
  · exact (strncpy_take buffer 20).symm
  · exact strncpy_length buffer 20

/-- Witness for C6 on the concrete buffer whose byte `i` is `i`. -/
theorem details_extracts_fields_witness :
    buffer64.length = 64
    ∧ ((usbd480_get_device_details true 64 buffer64 dev480).1.width
          = byteAt buffer64 20 + 256 * byteAt buffer64 21
       ∧ (usbd480_get_device_details true 64 buffer64 dev480).1.height
           = byteAt buffer64 22 + 256 * byteAt buffer64 23
       ∧ (usbd480_get_device_details true 64 buffer64 dev480).1.device_name
           = strncpy (buffer64.take 20) 20
       ∧ ((usbd480_get_device_details true 64 buffer64
             dev480).1.device_name).length = 20) :=
  ⟨rfl, details_extracts_fields 64 buffer64 dev480 rfl⟩

/-- Claim C7 (confirmed): the brightness store parses any unsigned decimal
text with no range validation, caches `parsed % 256` (the `unsigned char`
field) whatever the transport result, forwards the parsed (int-truncated)
value to `usbd480_set_brightness`, and returns `count`; for the input
`300` the cached value is deterministically `44 = 300 % 256` (wrapping,
not clamping to 255). -/
theorem set_brightness_parses_and_wraps :
    (∀ (buf : List Char) (r : Int) (d : Usbd480),
        (set_brightness buf r d).1.brightness = simple_strtoul buf % 256
        ∧ (set_brightness buf r d).2.1 = simple_strtoul buf % 2 ^ 32
        ∧ (set_brightness buf r d).2.2 = buf.length)
    ∧ (set_brightness input300 (-71) dev480).1.brightness = 44
    ∧ 44 = 300 % 256
    ∧ (set_brightness input300 (-71) dev480).1.brightness ≠ 255 := by
  refine ⟨fun buf r d => ⟨?_, rfl, rfl⟩, by decide, by decide, by decide⟩
  show simple_strtoul buf % 2 ^ 32 % 256 = simple_strtoul buf % 256
  exact Nat.mod_mod_of_dvd _ (by norm_num)

/-- Claim C8 (confirmed): when the probe's frame-memory allocation fails
(after the four attribute files were created), the unwind removes every
attribute file and no framebuffer registration remains; the struct is
freed and `-ENOMEM` is returned. -/
theorem vmem_failure_full_unwind (env : ProbeEnv)
    (hk : env.kzallocOk = true)
    (h1 : env.attrBrightnessRet = 0) (h2 : env.attrWidthRet = 0)
    (h3 : env.attrHeightRet = 0) (h4 : env.attrNameRet = 0)
    (hv : env.vmemOk = false) :
    (usbd480_probe env).res.attrCount = 0
    ∧ (usbd480_probe env).res.fbRegistered = false
    ∧ (usbd480_probe env).res.vmemPages = false
    ∧ (usbd480_probe env).res.devStruct = false
    ∧ (usbd480_probe env).retval = -ENOMEM := by
  simp [usbd480_probe, hk, h1, h2, h3, h4, hv, error_vmem, error_dev_attr,
    error_dev, Resources.attrCount]

/-- Witness for C8 on the concrete environment whose allocation fails. -/
theorem vmem_failure_full_unwind_witness :
    (vmemFailEnv.kzallocOk = true ∧ vmemFailEnv.attrBrightnessRet = 0
     ∧ vmemFailEnv.attrWidthRet = 0 ∧ vmemFailEnv.attrHeightRet = 0
     ∧ vmemFailEnv.attrNameRet = 0 ∧ vmemFailEnv.vmemOk = false)
    ∧ ((usbd480_probe vmemFailEnv).res.attrCount = 0
       ∧ (usbd480_probe vmemFailEnv).res.fbRegistered = false
       ∧ (usbd480_probe vmemFailEnv).res.vmemPages = false
       ∧ (usbd480_probe vmemFailEnv).res.devStruct = false
       ∧ (usbd480_probe vmemFailEnv).retval = -ENOMEM) :=
  ⟨⟨rfl, rfl, rfl, rfl, rfl, rfl⟩,
   vmem_failure_full_unwind vmemFailEnv rfl rfl rfl rfl rfl rfl⟩

/-- Claim C9 (confirmed): in the detach sequence the synchronous work
cancellation, the workqueue flush and its destruction are the first three
steps (each occurring exactly once), and both the frame-memory free and
the struct free come strictly after them — frame memory is released only
once the scheduler task's stop is confirmed. -/
theorem disconnect_cancels_before_free (hasFbinfo : Bool) :
    ((usbd480_disconnect hasFbinfo).count DiscEvent.cancelDelayedWorkSync = 1
     ∧ (usbd480_disconnect hasFbinfo).count DiscEvent.flushWorkqueue = 1
     ∧ (usbd480_disconnect hasFbinfo).count DiscEvent.destroyWorkqueue = 1
     ∧ (usbd480_disconnect hasFbinfo).count DiscEvent.kfreeDev = 1)
    ∧ (usbd480_disconnect hasFbinfo).take 3
        = [DiscEvent.cancelDelayedWorkSync, DiscEvent.flushWorkqueue,
           DiscEvent.destroyWorkqueue]
    ∧ (usbd480_disconnect hasFbinfo).indexOf DiscEvent.cancelDelayedWorkSync
        < (usbd480_disconnect hasFbinfo).indexOf DiscEvent.kfreeDev
    ∧ (usbd480_disconnect hasFbinfo).indexOf DiscEvent.destroyWorkqueue
        < (usbd480_disconnect hasFbinfo).indexOf DiscEvent.kfreeDev
    ∧ (hasFbinfo = true →
        (usbd480_disconnect hasFbinfo).count DiscEvent.freePages = 1
        ∧ (usbd480_disconnect hasFbinfo).indexOf DiscEvent.destroyWorkqueue
            < (usbd480_disconnect hasFbinfo).indexOf DiscEvent.freePages
        ∧ (usbd480_disconnect hasFbinfo).indexOf
              DiscEvent.cancelDelayedWorkSync
            < (usbd480_disconnect hasFbinfo).indexOf DiscEvent.freePages) := by
  cases hasFbinfo <;> decide

/-- Claim C10 (confirmed): one refresh cycle changes nothing of the
session state but `disp_page` — the buffer pointer, its size, the
physical address, the cached brightness, the dimensions and the device
name all come out unchanged. -/
theorem work_mutates_only_disp_page (r : Int) (d : Usbd480) :
    (usbd480fb_work r d).1
        = { d with disp_page := (usbd480fb_work r d).1.disp_page }
    ∧ (usbd480fb_work r d).1.vmem = d.vmem
    ∧ (usbd480fb_work r d).1.vmemsize = d.vmemsize
    ∧ (usbd480fb_work r d).1.vmem_phys = d.vmem_phys
    ∧ (usbd480fb_work r d).1.brightness = d.brightness
    ∧ (usbd480fb_work r d).1.width = d.width
    ∧ (usbd480fb_work r d).1.height = d.height
    ∧ (usbd480fb_work r d).1.device_name = d.device_name := by
  unfold usbd480fb_work
  split <;> simp

end Usbd480fb
